import Mathlib

/-!
Verification development for the stainless-tools repository.

This file gives a shallow embedding, in Lean, of the parts of the source
that the verified properties are about:

* `FileWatcher` (src/unnamed/part_008): the debounced, single-flight
  publish coordinator around `publishFiles`;
* `RepoManager` (src/src/RepoManager.ts): `pullChanges`,
  `restoreStashedChanges`, `handleFailedPull`, `isSameRepository`,
  `updateExistingRepo`, `hasNewChanges`, `waitForRemoteBranch`,
  `cloneFreshRepo` and the lifecycle-hook gates;
* `StainlessTools.clone` (src/unnamed/part_015);
* `LifecycleManager` (src/src/LifecycleManager.ts): hook lookup.

Effectful TypeScript code is embedded as pure functions from an explicit
environment (recording the outcome of each fallible external operation:
git subprocess calls, file reads, the publish HTTP call) to a trace of
performed operations plus a final outcome (normal return, thrown error,
or forced process exit).  Event-driven code (the chokidar `change`
handler and its debounce timer) is embedded as a step function on an
explicit watcher state, driven by a list of events.
-/

namespace FileWatcher

/-- Events that drive the `FileWatcher` state machine of
src/unnamed/part_008: a chokidar `change` event being delivered to the
handler installed by `start()` (lines 63-111), the pending debounce
timer's callback running (lines 76-105), and the in-flight
`publishFiles` execution settling (the `finally` at lines 96-99, or the
catch at line 100-104, both of which reset `isPublishing`). -/
inductive Ev where
  | change
  | fire
  | complete
deriving DecidableEq, Repr

/-- The mutable fields of the `FileWatcher` class that the `change`
handler reads and writes: `publishTimeout` (abstracted to whether a
debounce timer is currently pending) and `isPublishing`.  `inFlight`
counts the `publishFiles` executions that have started and not yet
settled, and `publishCount` counts all `publishFiles` calls made. -/
structure WatcherState where
  timerPending : Bool
  isPublishing : Bool
  inFlight : Nat
  publishCount : Nat
deriving DecidableEq, Repr

/-- Fields as initialized by the class (no timer, not publishing). -/
def initState : WatcherState := ⟨false, false, 0, 0⟩

/-- One event of the `change`-handler state machine, translated from
src/unnamed/part_008 lines 63-105:

* `change`: clear any existing timeout (lines 66-69); if already
  publishing, return without scheduling (lines 72-74); otherwise set a
  new debounce timer (line 76).
* `fire`: the timer callback runs (only meaningful while a timer is
  pending).  It re-checks `isPublishing` (lines 78-85) and returns after
  clearing the timeout if a publish is in flight; otherwise it sets
  `isPublishing = true` (line 87) and calls `publishFiles` (line 92),
  which is then in flight.
* `complete`: the in-flight `publishFiles` settles; the `finally`
  block (lines 96-99) resets `isPublishing = false`. -/
def step (s : WatcherState) : Ev → WatcherState
  | .change =>
    let s1 : WatcherState := { s with timerPending := false }
    if s1.isPublishing then s1
    else { s1 with timerPending := true }
  | .fire =>
    if s.timerPending then
      if s.isPublishing then { s with timerPending := false }
      else { s with timerPending := false, isPublishing := true,
                    inFlight := s.inFlight + 1, publishCount := s.publishCount + 1 }
    else s
  | .complete =>
    if s.isPublishing then { s with isPublishing := false, inFlight := s.inFlight - 1 }
    else s

/-- Run the watcher over a sequence of delivered events. -/
def run (s : WatcherState) : List Ev → WatcherState
  | [] => s
  | e :: es => run (step s e) es

/-- Coupling invariant: the in-flight count is determined by the
`isPublishing` flag. -/
def flightInv (s : WatcherState) : Prop :=
  s.inFlight = if s.isPublishing then 1 else 0

theorem step_flightInv (s : WatcherState) (e : Ev) (h : flightInv s) :
    flightInv (step s e) := by
  obtain ⟨tp, ip, fl, pc⟩ := s
  simp only [flightInv] at h
  cases e <;> cases tp <;> cases ip <;>
    simp_all [flightInv, step]

theorem run_flightInv (evs : List Ev) (s : WatcherState) (h : flightInv s) :
    flightInv (run s evs) := by
  induction evs generalizing s with
  | nil => exact h
  | cons e es ih => exact ih (step s e) (step_flightInv s e h)

end FileWatcher

namespace FileWatcher

/-- Timed model of the debounce logic, for runs in which no publish
overlaps any delivered event (each `publishFiles` call settles before
the next event arrives, so `isPublishing` is `false` whenever the
handler runs).  `deadline` is the absolute time at which the pending
`setTimeout` (scheduled with delay 1000, line 105 of
src/unnamed/part_008) will fire. -/
structure DebounceState where
  deadline : Option Nat
  publishCount : Nat
deriving DecidableEq, Repr

/-- The event loop fires a pending timer whose deadline has been
reached; with no overlapping publish the callback calls `publishFiles`
exactly once (lines 87-99). -/
def fireIfDue (now : Nat) (s : DebounceState) : DebounceState :=
  match s.deadline with
  | some d => if d ≤ now then { deadline := none, publishCount := s.publishCount + 1 } else s
  | none => s

/-- A `change` event arriving at time `now`: any timer due before `now`
has already fired; the handler clears the pending timer (lines 66-69)
and, since no publish is executing, schedules a fresh one for
`now + 1000` (lines 76, 105). -/
def onChange (now : Nat) (s : DebounceState) : DebounceState :=
  let s1 := fireIfDue now s
  { s1 with deadline := some (now + 1000) }

/-- Deliver a burst of change events at the given (nondecreasing)
times. -/
def runChanges (s : DebounceState) : List Nat → DebounceState
  | [] => s
  | t :: ts => runChanges (onChange t s) ts

/-- After the last event, let any still-pending timer fire; the result
is the total number of `publishFiles` calls for the burst. -/
def flush (s : DebounceState) : Nat :=
  s.publishCount + (match s.deadline with | some _ => 1 | none => 0)

/-- Total number of `publishFiles` calls produced by a burst of change
events arriving at the given times, starting from the idle watcher. -/
def publishes (ts : List Nat) : Nat := flush (runChanges ⟨none, 0⟩ ts)

/-- Every event after the one at time `t` arrives within the 1000 ms
debounce window of its predecessor (and time is nondecreasing). -/
def withinWindow : Nat → List Nat → Bool
  | _, [] => true
  | t, t' :: ts => decide (t ≤ t') && decide (t' < t + 1000) && withinWindow t' ts

/-- Every event after the one at time `t` arrives at or beyond its
predecessor's 1000 ms debounce deadline. -/
def beyondWindow : Nat → List Nat → Bool
  | _, [] => true
  | t, t' :: ts => decide (t + 1000 ≤ t') && beyondWindow t' ts

theorem runChanges_within (ts : List Nat) (t c : Nat)
    (h : withinWindow t ts = true) :
    flush (runChanges ⟨some (t + 1000), c⟩ ts) = c + 1 := by
  induction ts generalizing t c with
  | nil => rfl
  | cons t' ts ih =>
    simp only [withinWindow, Bool.and_eq_true, decide_eq_true_eq] at h
    obtain ⟨⟨h1, h2⟩, h3⟩ := h
    have hfire : fireIfDue t' ⟨some (t + 1000), c⟩ = ⟨some (t + 1000), c⟩ := by
      simp [fireIfDue, Nat.not_le.mpr h2]
    simp only [runChanges, onChange, hfire]
    exact ih t' c h3

theorem runChanges_beyond (ts : List Nat) (t c : Nat)
    (h : beyondWindow t ts = true) :
    flush (runChanges ⟨some (t + 1000), c⟩ ts) = c + 1 + ts.length := by
  induction ts generalizing t c with
  | nil => rfl
  | cons t' ts ih =>
    simp only [beyondWindow, Bool.and_eq_true, decide_eq_true_eq] at h
    obtain ⟨h1, h2⟩ := h
    have hfire : fireIfDue t' ⟨some (t + 1000), c⟩ = ⟨none, c + 1⟩ := by
      simp [fireIfDue, h1]
    simp only [runChanges, onChange, hfire]
    have := ih t' (c + 1) h2
    simp only [List.length_cons]
    omega

end FileWatcher

/-- C1. Single-flight publish: over every sequence of delivered events,
at most one `publishFiles` execution is in flight at any time; a change
event arriving while `isPublishing` holds clears the pending timer,
schedules no new publish, and leaves the publish count unchanged; and
once the in-flight publish completes (resetting `isPublishing`), a
subsequent change event followed by its timer firing triggers exactly
one more publish. -/
theorem fileWatcher_single_flight :
    (∀ evs : List FileWatcher.Ev,
      (FileWatcher.run FileWatcher.initState evs).inFlight ≤ 1) ∧
    (∀ s : FileWatcher.WatcherState, s.isPublishing = true →
      FileWatcher.step s .change = { s with timerPending := false } ∧
      (FileWatcher.step s .change).publishCount = s.publishCount) ∧
    (∀ s : FileWatcher.WatcherState, s.isPublishing = true →
      (FileWatcher.run s [.complete, .change, .fire]).publishCount
        = s.publishCount + 1) := by
  refine ⟨?_, ?_, ?_⟩
  · intro evs
    have h := FileWatcher.run_flightInv evs FileWatcher.initState (by rfl)
    unfold FileWatcher.flightInv at h
    rw [h]
    split <;> omega
  · intro s hs
    constructor
    · simp [FileWatcher.step, hs]
    · simp [FileWatcher.step, hs]
  · intro s hs
    simp [FileWatcher.run, FileWatcher.step, hs]

/-- Witness for C1: after `[change, fire]` a publish is in flight
(`isPublishing` is true with publish count 1), and the theorem applied
there shows the drop and the exactly-one-more-publish behavior. -/
theorem fileWatcher_single_flight_witness :
    (FileWatcher.run FileWatcher.initState [.change, .fire]).isPublishing = true ∧
    (FileWatcher.run (FileWatcher.run FileWatcher.initState [.change, .fire])
      [.complete, .change, .fire]).publishCount
      = (FileWatcher.run FileWatcher.initState [.change, .fire]).publishCount + 1 := by
  refine ⟨by decide, ?_⟩
  exact fileWatcher_single_flight.2.2 _ (by decide)

/-- C2. Debounce coalescing: a burst of `N ≥ 1` change events, each
arriving within the 1000 ms debounce window of its predecessor while no
publish is executing, produces exactly one `publishFiles` call (each new
event replaces the pending timer); `N` events spaced at or beyond the
window, with no overlapping publish, produce exactly `N` calls. -/
theorem fileWatcher_debounce_coalescing (t0 : Nat) (ts : List Nat) :
    (FileWatcher.withinWindow t0 ts = true →
      FileWatcher.publishes (t0 :: ts) = 1) ∧
    (FileWatcher.beyondWindow t0 ts = true →
      FileWatcher.publishes (t0 :: ts) = (t0 :: ts).length) := by
  have hstart : FileWatcher.onChange t0 ⟨none, 0⟩
      = (⟨some (t0 + 1000), 0⟩ : FileWatcher.DebounceState) := by
    simp [FileWatcher.onChange, FileWatcher.fireIfDue]
  constructor
  · intro h
    unfold FileWatcher.publishes
    simp only [FileWatcher.runChanges, hstart]
    exact FileWatcher.runChanges_within ts t0 0 h
  · intro h
    unfold FileWatcher.publishes
    simp only [FileWatcher.runChanges, hstart]
    have := FileWatcher.runChanges_beyond ts t0 0 h
    simp only [List.length_cons]
    omega

/-- Witness for C2: three events inside one window give one publish;
three events spaced a window apart give three publishes. -/
theorem fileWatcher_debounce_coalescing_witness :
    (FileWatcher.withinWindow 0 [500, 999] = true ∧
      FileWatcher.publishes [0, 500, 999] = 1) ∧
    (FileWatcher.beyondWindow 0 [1000, 2500] = true ∧
      FileWatcher.publishes [0, 1000, 2500] = [0, 1000, 2500].length) :=
  ⟨⟨by decide, (fileWatcher_debounce_coalescing 0 [500, 999]).1 (by decide)⟩,
   ⟨by decide, (fileWatcher_debounce_coalescing 0 [1000, 2500]).2 (by decide)⟩⟩

/-- Lifecycle hook stages (src/src/LifecycleManager.ts `LifecycleConfig`). -/
inductive Stage where
  | postClone
  | postUpdate
  | prePublishSpec
deriving DecidableEq, Repr

/-- Distinguished console-instruction blocks printed by RepoManager before
terminating or continuing (identified by their source lines). -/
inductive Msg where
  /-- Lines 302-305: conflicts may exist; resolve and `git stash drop`. -/
  | resolveAndDrop
  /-- Lines 308-312: run `git stash pop`, resolve manually, commit. -/
  | popAndResolve
  /-- Lines 391-396: the four-step manual update recovery after a failed pull. -/
  | pullManualRecovery
deriving DecidableEq, Repr

/-- External operations performed by the embedded code, recorded in traces:
git subprocess calls, file reads, the publish HTTP call, lifecycle hook
commands, and the instruction blocks printed to the console. -/
inductive Op where
  | status
  | log
  | fetch
  | stashPush
  | pull
  | stashPop
  | stashList
  | stashApply (ref : String)
  | getRemotes
  | mkdir
  | gitInit
  | addRemote
  | branchList
  | waitForBranch
  | checkout
  | branchSwitchCall
  | readSpec
  | readConfig
  | apiPublish
  | hook (stage : Stage) (cmd : String)
  | print (m : Msg)
deriving DecidableEq, Repr

/-- Errors: either an error thrown by an underlying library call
(simple-git, fs, the HTTP client) during the given operation, or a
`StainlessError` (src/src/StainlessError.ts) with a message and an
optional cause. -/
inductive Err where
  | opErr (op : Op)
  | stainless (msg : String) (cause : Option Err)

/-- `error instanceof StainlessError`. -/
def Err.isStainless : Err → Bool
  | .stainless _ _ => true
  | .opErr _ => false

/-- How an embedded async method finishes: normal return, a thrown
error propagated to the caller, or `process.exit(code)`. -/
inductive Outcome where
  | ok
  | exited (code : Nat)
  | thrown (e : Err)

/-- JavaScript truthiness of an optional string option (`undefined` and
the empty string are falsy). -/
def truthy : Option String → Bool
  | some s => !(s == "")
  | none => false

def isStashOp : Op → Bool
  | .stashPush => true
  | .stashPop => true
  | .stashList => true
  | .stashApply _ => true
  | _ => false

def isHookOp : Op → Bool
  | .hook _ _ => true
  | _ => false

namespace LifecycleManager

/-- The per-SDK entry of `LifecycleConfig` (src/src/LifecycleManager.ts
lines 9-27): optional commands for each stage. -/
structure StageCmds where
  postClone : Option String
  postUpdate : Option String
  prePublishSpec : Option String

/-- `LifecycleConfig`: a map from SDK name to its configured commands
(`this.config[context.sdkName]`). -/
def LifecycleConfig : Type := String → Option StageCmds

/-- `executePostClone` (lines 113-118): look up
`config[context.sdkName]?.postClone` and execute it when truthy.  The
hook command is modeled as succeeding; its failure is not relevant to
the verified claims. -/
def executePostClone (cfg : LifecycleConfig) (sdkName : String) : List Op :=
  match (cfg sdkName).bind StageCmds.postClone with
  | some cmd => if cmd = "" then [] else [.hook .postClone cmd]
  | none => []

/-- `executePostUpdate` (lines 123-128). -/
def executePostUpdate (cfg : LifecycleConfig) (sdkName : String) : List Op :=
  match (cfg sdkName).bind StageCmds.postUpdate with
  | some cmd => if cmd = "" then [] else [.hook .postUpdate cmd]
  | none => []

/-- `executePrePublishSpec` (lines 133-138). -/
def executePrePublishSpec (cfg : LifecycleConfig) (sdkName : String) : List Op :=
  match (cfg sdkName).bind StageCmds.prePublishSpec with
  | some cmd => if cmd = "" then [] else [.hook .prePublishSpec cmd]
  | none => []

end LifecycleManager

namespace RepoManager

open LifecycleManager

/-- Character class `[\w-]` of the JavaScript regex in
`isSameRepository` (src/src/RepoManager.ts line 100): ASCII letters,
digits, underscore, or hyphen. -/
def isWordDash (c : Char) : Bool :=
  c.isAlpha || c.isDigit || c == '_' || c == '-'

/-- One attempt of `/(?:^|\/|:)([\w-]+\/[\w-]+)(?:\.git)?$/` with the
capture group starting at the head of `cs`: a maximal nonempty `[\w-]+`
run, a `/`, a second maximal nonempty run, then either the literal
`.git` ending the string or the end of the string.  (Both `+` runs must
be maximal: the character after a shorter run would still be in the
class, and neither `.` nor end-of-input can follow it.) -/
def captureFrom (cs : List Char) : Option (List Char) :=
  let a := cs.takeWhile isWordDash
  let rest := cs.drop a.length
  if a.isEmpty then none
  else
    match rest with
    | '/' :: rest2 =>
      let b := rest2.takeWhile isWordDash
      let rest3 := rest2.drop b.length
      if b.isEmpty then none
      else if rest3 = ['.', 'g', 'i', 't'] || rest3 = [] then some (a ++ '/' :: b)
      else none
    | _ => none

/-- Scan for the leftmost start position at which the regex matches:
the `(?:\/|:)` alternatives consume the delimiter at each candidate
position, with the capture starting just after it. -/
def scanFrom : List Char → Option (List Char)
  | [] => none
  | c :: cs =>
    if c == '/' || c == ':' then
      match captureFrom cs with
      | some r => some r
      | none => scanFrom cs
    else scanFrom cs

/-- `url.match(/(?:^|\/|:)([\w-]+\/[\w-]+)(?:\.git)?$/)` group 1: the
`^` alternative is tried at position 0, then the delimiter alternatives
at every position, left to right. -/
def jsMatchRepoPath (cs : List Char) : Option (List Char) :=
  match captureFrom cs with
  | some r => some r
  | none => scanFrom cs

/-- `getRepoPath` (lines 99-102): the captured `org/repo` path, or `""`
when the URL does not match. -/
def getRepoPath (url : String) : String :=
  match jsMatchRepoPath url.data with
  | some r => ⟨r⟩
  | none => ""

/-- `isSameRepository` (lines 98-107). -/
def isSameRepository (url1 url2 : String) : Bool :=
  let repo1 := getRepoPath url1
  let repo2 := getRepoPath url2
  !(repo1 == "") && !(repo2 == "") && repo1 == repo2

/-- The matched text of `stashList.split("\n")[0]?.match(/stash@\x7b0\x7d/)`
(line 296): the literal `stash@\x7b0\x7d` when the first line of the
stash listing contains it, else nothing. -/
def findStashRef (stashList : String) : Option String :=
  let line : String := ⟨stashList.data.takeWhile (fun c => !(c == '\n'))⟩
  if "stash@\x7b0\x7d".data <:+: line.data then some "stash@\x7b0\x7d" else none

/-- Environment of one `pullChanges` call: the working-tree state at
entry and the outcome of each fallible call it may perform.  The status
call is modeled as succeeding (the claims condition on the clean/dirty
state it reports), and lifecycle hook commands as succeeding. -/
structure PullEnv where
  /-- `status.isClean()` at entry (lines 343-344). -/
  clean : Bool
  /-- Whether `getCurrentSdkCommitHash()` at line 345 (the old-hash read,
  before the stash push) succeeds. -/
  oldHashOk : Bool
  /-- Whether `pull("origin", branch)` (line 354) succeeds. -/
  pullOk : Bool
  /-- Whether `getCurrentSdkCommitHash()` at line 355 (the new-hash read,
  after a successful pull) succeeds. -/
  newHashOk : Bool
  /-- Whether `stash(["pop"])` in `restoreStashedChanges` (line 292) succeeds. -/
  popOk : Bool
  /-- Whether `stash(["list"])` (line 295) succeeds. -/
  stashListOk : Bool
  /-- Output of `stash(["list"])` when it succeeds. -/
  stashListOut : String
  /-- Whether `stash(["apply", ref])` (line 300) succeeds. -/
  applyOk : Bool
  /-- Whether `stash(["pop"])` in `handleFailedPull` (line 389) succeeds. -/
  hfpPopOk : Bool
  /-- `options.sdkName`. -/
  sdkName : Option String
  /-- The lifecycle configuration held by the `LifecycleManager`. -/
  cfg : LifecycleConfig

/-- `restoreStashedChanges` (lines 289-319): try `stash pop`; on
failure, read the stash listing (line 295) — this read is NOT inside any
inner try, so when it throws, the raw simple-git error (not a
`StainlessError`) propagates out of this method with no apply attempt
and no exit.  When the listing is read, parse the most recent stash
entry from its first line; when a reference is found, try `stash apply`
on it and exit 1 either way (printing the matching instruction block);
when none is found, throw a `StainlessError` carrying the pop error as
cause. -/
def restoreStashedChanges (env : PullEnv) : List Op × Outcome :=
  if env.popOk then ([.stashPop], .ok)
  else if env.stashListOk = false then
    ([.stashPop, .stashList], .thrown (.opErr .stashList))
  else
    match findStashRef env.stashListOut with
    | some ref =>
      if env.applyOk then
        ([.stashPop, .stashList, .stashApply ref, .print .resolveAndDrop], .exited 1)
      else
        ([.stashPop, .stashList, .stashApply ref, .print .popAndResolve], .exited 1)
    | none =>
      ([.stashPop, .stashList],
        .thrown (.stainless "Failed to reapply local changes and could not find stash reference"
          (some (.opErr .stashPop))))

/-- `handleFailedPull` (lines 386-401): try `stash pop`; on success
print the four-step manual recovery instructions and exit 1; on failure
throw a `StainlessError` carrying the pop error as cause. -/
def handleFailedPull (env : PullEnv) : List Op × Outcome :=
  if env.hfpPopOk then ([.stashPop, .print .pullManualRecovery], .exited 1)
  else
    ([.stashPop],
      .thrown (.stainless "Failed to restore local changes after pull failed"
        (some (.opErr .stashPop))))

/-- `executePostUpdateCommand` (lines 376-384): the hook is invoked only
when `options.sdkName` is truthy. -/
def executePostUpdateCommand (cfg : LifecycleConfig) (sdkName : Option String) : List Op :=
  match sdkName with
  | some n => if n = "" then [] else executePostUpdate cfg n
  | none => []

/-- `executePostCloneCommand` (lines 235-243): same gate for the
post-clone hook. -/
def executePostCloneCommand (cfg : LifecycleConfig) (sdkName : Option String) : List Op :=
  match sdkName with
  | some n => if n = "" then [] else executePostClone cfg n
  | none => []

/-- `pullChanges` (lines 341-374): read the working-tree status and the
old commit hash (line 345) — a failure of that read throws its
`StainlessError` ("Failed to get SDK commit hash") before any stash
push, and the outer catch rethrows it unchanged.  Otherwise stash-push
when dirty and pull.  On pull success, read the new hash (line 355) —
its `StainlessError` on failure is rethrown by the inner catch without
calling `handleFailedPull` (the guard at line 365 applies only to
non-`StainlessError`s), skipping any stash restore.  Otherwise restore
any stash (line 360) and run the post-update hook (line 363); when
`restoreStashedChanges` throws a raw error (the stash-list read), the
inner catch sees a non-`StainlessError` with a stash outstanding and
runs `handleFailedPull`.  On pull failure (a simple-git error, never a
`StainlessError`) with a stash outstanding, run `handleFailedPull`
(line 366); a `StainlessError` thrown by either helper passes through
both catch blocks unchanged, while a bare error reaching the outer catch
is wrapped as "Failed to pull changes" (line 372). -/
def pullChanges (env : PullEnv) : List Op × Outcome :=
  let hasLocalChanges := !env.clean
  if env.oldHashOk = false then
    ([.status, .log],
      .thrown (.stainless "Failed to get SDK commit hash" (some (.opErr .log))))
  else
    let t1 : List Op := [.status, .log] ++ (if hasLocalChanges then [.stashPush] else [])
    if env.pullOk then
      if env.newHashOk = false then
        (t1 ++ [.pull, .log],
          .thrown (.stainless "Failed to get SDK commit hash" (some (.opErr .log))))
      else
        let t2 := t1 ++ [.pull, .log]
        if hasLocalChanges then
          match restoreStashedChanges env with
          | (rt, .ok) => (t2 ++ rt ++ executePostUpdateCommand env.cfg env.sdkName, .ok)
          | (rt, .exited c) => (t2 ++ rt, .exited c)
          | (rt, .thrown e) =>
            if e.isStainless then (t2 ++ rt, .thrown e)
            else
              match handleFailedPull env with
              | (ht, .exited c) => (t2 ++ rt ++ ht, .exited c)
              | (ht, .thrown e2) => (t2 ++ rt ++ ht, .thrown e2)
              | (ht, .ok) =>
                (t2 ++ rt ++ ht, .thrown (.stainless "Failed to pull changes" (some e)))
        else
          (t2 ++ executePostUpdateCommand env.cfg env.sdkName, .ok)
    else
      if hasLocalChanges then
        match handleFailedPull env with
        | (ht, .exited c) => (t1 ++ .pull :: ht, .exited c)
        | (ht, .thrown e) => (t1 ++ .pull :: ht, .thrown e)
        | (ht, .ok) =>
          (t1 ++ .pull :: ht,
            .thrown (.stainless "Failed to pull changes" (some (.opErr .pull))))
      else
        (t1 ++ [.pull], .thrown (.stainless "Failed to pull changes" (some (.opErr .pull))))

end RepoManager

theorem mem_executePostUpdateCommand {cfg : LifecycleManager.LifecycleConfig}
    {n : Option String} {op : Op}
    (h : op ∈ RepoManager.executePostUpdateCommand cfg n) :
    ∃ c, op = .hook .postUpdate c := by
  rcases n with _ | s
  · simp [RepoManager.executePostUpdateCommand] at h
  · by_cases hs : s = ""
    · simp [RepoManager.executePostUpdateCommand, hs] at h
    · simp only [RepoManager.executePostUpdateCommand,
        LifecycleManager.executePostUpdate] at h
      rw [if_neg hs] at h
      rcases hm : ((cfg s).bind LifecycleManager.StageCmds.postUpdate) with _ | cmd <;>
        rw [hm] at h
      · simp at h
      · by_cases hc : cmd = ""
        · simp [hc] at h
        · simp [hc] at h
          exact ⟨cmd, h⟩

theorem count_stashPush_executePostUpdateCommand
    (cfg : LifecycleManager.LifecycleConfig) (n : Option String) :
    (RepoManager.executePostUpdateCommand cfg n).count Op.stashPush = 0 := by
  rw [List.count_eq_zero]
  intro hmem
  obtain ⟨c, hc⟩ := mem_executePostUpdateCommand hmem
  simp at hc

theorem no_stash_executePostUpdateCommand
    (cfg : LifecycleManager.LifecycleConfig) (n : Option String) :
    ∀ op ∈ RepoManager.executePostUpdateCommand cfg n, isStashOp op = false := by
  intro op hmem
  obtain ⟨c, hc⟩ := mem_executePostUpdateCommand hmem
  subst hc
  rfl


theorem pullChanges_oldHash_fail (env : RepoManager.PullEnv)
    (h0 : env.oldHashOk = false) :
    RepoManager.pullChanges env
      = ([Op.status, Op.log],
         .thrown (.stainless "Failed to get SDK commit hash" (some (.opErr .log)))) := by
  simp [RepoManager.pullChanges, h0]

theorem pullChanges_clean_newHash_fail (env : RepoManager.PullEnv)
    (h0 : env.oldHashOk = true) (h1 : env.clean = true) (h2 : env.pullOk = true)
    (h3 : env.newHashOk = false) :
    RepoManager.pullChanges env
      = ([Op.status, Op.log, Op.pull, Op.log],
         .thrown (.stainless "Failed to get SDK commit hash" (some (.opErr .log)))) := by
  simp [RepoManager.pullChanges, h0, h1, h2, h3]

theorem pullChanges_dirty_newHash_fail (env : RepoManager.PullEnv)
    (h0 : env.oldHashOk = true) (h1 : env.clean = false) (h2 : env.pullOk = true)
    (h3 : env.newHashOk = false) :
    RepoManager.pullChanges env
      = ([Op.status, Op.log, Op.stashPush, Op.pull, Op.log],
         .thrown (.stainless "Failed to get SDK commit hash" (some (.opErr .log)))) := by
  simp [RepoManager.pullChanges, h0, h1, h2, h3]

theorem pullChanges_clean_ok (env : RepoManager.PullEnv)
    (h0 : env.oldHashOk = true) (h1 : env.clean = true) (h2 : env.pullOk = true)
    (h3 : env.newHashOk = true) :
    RepoManager.pullChanges env
      = ([Op.status, Op.log, Op.pull, Op.log]
          ++ RepoManager.executePostUpdateCommand env.cfg env.sdkName, .ok) := by
  simp [RepoManager.pullChanges, h0, h1, h2, h3]

theorem pullChanges_clean_fail (env : RepoManager.PullEnv)
    (h0 : env.oldHashOk = true) (h1 : env.clean = true) (h2 : env.pullOk = false) :
    RepoManager.pullChanges env
      = ([Op.status, Op.log, Op.pull],
         .thrown (.stainless "Failed to pull changes" (some (.opErr .pull)))) := by
  simp [RepoManager.pullChanges, h0, h1, h2]

theorem pullChanges_dirty_ok_pop (env : RepoManager.PullEnv)
    (h0 : env.oldHashOk = true) (h1 : env.clean = false) (h2 : env.pullOk = true)
    (hN : env.newHashOk = true) (h3 : env.popOk = true) :
    RepoManager.pullChanges env
      = ([Op.status, Op.log, Op.stashPush, Op.pull, Op.log, Op.stashPop]
          ++ RepoManager.executePostUpdateCommand env.cfg env.sdkName, .ok) := by
  simp [RepoManager.pullChanges, RepoManager.restoreStashedChanges, h0, h1, h2, hN, h3]

theorem pullChanges_dirty_ok_listFail_pop (env : RepoManager.PullEnv)
    (h0 : env.oldHashOk = true) (h1 : env.clean = false) (h2 : env.pullOk = true)
    (hN : env.newHashOk = true) (h3 : env.popOk = false)
    (hL : env.stashListOk = false) (h5 : env.hfpPopOk = true) :
    RepoManager.pullChanges env
      = ([Op.status, Op.log, Op.stashPush, Op.pull, Op.log, Op.stashPop, Op.stashList,
          Op.stashPop, Op.print .pullManualRecovery], .exited 1) := by
  simp [RepoManager.pullChanges, RepoManager.restoreStashedChanges,
    RepoManager.handleFailedPull, Err.isStainless, h0, h1, h2, hN, h3, hL, h5]

theorem pullChanges_dirty_ok_listFail_noPop (env : RepoManager.PullEnv)
    (h0 : env.oldHashOk = true) (h1 : env.clean = false) (h2 : env.pullOk = true)
    (hN : env.newHashOk = true) (h3 : env.popOk = false)
    (hL : env.stashListOk = false) (h5 : env.hfpPopOk = false) :
    RepoManager.pullChanges env
      = ([Op.status, Op.log, Op.stashPush, Op.pull, Op.log, Op.stashPop, Op.stashList,
          Op.stashPop],
         .thrown (.stainless "Failed to restore local changes after pull failed"
           (some (.opErr .stashPop)))) := by
  simp [RepoManager.pullChanges, RepoManager.restoreStashedChanges,
    RepoManager.handleFailedPull, Err.isStainless, h0, h1, h2, hN, h3, hL, h5]

theorem pullChanges_dirty_ok_apply (env : RepoManager.PullEnv) (ref : String)
    (h0 : env.oldHashOk = true) (h1 : env.clean = false) (h2 : env.pullOk = true)
    (hN : env.newHashOk = true) (h3 : env.popOk = false) (hL : env.stashListOk = true)
    (h4 : RepoManager.findStashRef env.stashListOut = some ref)
    (h5 : env.applyOk = true) :
    RepoManager.pullChanges env
      = ([Op.status, Op.log, Op.stashPush, Op.pull, Op.log, Op.stashPop,
          Op.stashList, Op.stashApply ref, Op.print .resolveAndDrop], .exited 1) := by
  simp [RepoManager.pullChanges, RepoManager.restoreStashedChanges,
    h0, h1, h2, hN, h3, hL, h4, h5]

theorem pullChanges_dirty_ok_noApply (env : RepoManager.PullEnv) (ref : String)
    (h0 : env.oldHashOk = true) (h1 : env.clean = false) (h2 : env.pullOk = true)
    (hN : env.newHashOk = true) (h3 : env.popOk = false) (hL : env.stashListOk = true)
    (h4 : RepoManager.findStashRef env.stashListOut = some ref)
    (h5 : env.applyOk = false) :
    RepoManager.pullChanges env
      = ([Op.status, Op.log, Op.stashPush, Op.pull, Op.log, Op.stashPop,
          Op.stashList, Op.stashApply ref, Op.print .popAndResolve], .exited 1) := by
  simp [RepoManager.pullChanges, RepoManager.restoreStashedChanges,
    h0, h1, h2, hN, h3, hL, h4, h5]

theorem pullChanges_dirty_ok_noRef (env : RepoManager.PullEnv)
    (h0 : env.oldHashOk = true) (h1 : env.clean = false) (h2 : env.pullOk = true)
    (hN : env.newHashOk = true) (h3 : env.popOk = false) (hL : env.stashListOk = true)
    (h4 : RepoManager.findStashRef env.stashListOut = none) :
    RepoManager.pullChanges env
      = ([Op.status, Op.log, Op.stashPush, Op.pull, Op.log, Op.stashPop, Op.stashList],
         .thrown (.stainless "Failed to reapply local changes and could not find stash reference"
           (some (.opErr .stashPop)))) := by
  simp [RepoManager.pullChanges, RepoManager.restoreStashedChanges, Err.isStainless,
    h0, h1, h2, hN, h3, hL, h4]

theorem pullChanges_dirty_fail_pop (env : RepoManager.PullEnv)
    (h0 : env.oldHashOk = true) (h1 : env.clean = false) (h2 : env.pullOk = false)
    (h3 : env.hfpPopOk = true) :
    RepoManager.pullChanges env
      = ([Op.status, Op.log, Op.stashPush, Op.pull, Op.stashPop,
          Op.print .pullManualRecovery], .exited 1) := by
  simp [RepoManager.pullChanges, RepoManager.handleFailedPull, h0, h1, h2, h3]

theorem pullChanges_dirty_fail_noPop (env : RepoManager.PullEnv)
    (h0 : env.oldHashOk = true) (h1 : env.clean = false) (h2 : env.pullOk = false)
    (h3 : env.hfpPopOk = false) :
    RepoManager.pullChanges env
      = ([Op.status, Op.log, Op.stashPush, Op.pull, Op.stashPop],
         .thrown (.stainless "Failed to restore local changes after pull failed"
           (some (.opErr .stashPop)))) := by
  simp [RepoManager.pullChanges, RepoManager.handleFailedPull, h0, h1, h2, h3]

/-- Counterexample to C3 as stated: on a dirty tree whose pull succeeds
but whose post-pull commit-hash read (RepoManager.ts line 355) fails, no
stash pop is attempted after the successful pull — the `StainlessError`
("Failed to get SDK commit hash") skips `restoreStashedChanges`
entirely; and on a dirty tree whose pre-stash hash read (line 345)
fails, no stash-push is performed at all. -/
theorem repoManager_stash_safety_cex :
    RepoManager.pullChanges
        ⟨false, true, true, false, false, true, "", false, false, none, fun _ => none⟩
      = ([Op.status, Op.log, Op.stashPush, Op.pull, Op.log],
         .thrown (.stainless "Failed to get SDK commit hash" (some (.opErr .log)))) ∧
    Op.stashPop ∉ (RepoManager.pullChanges
        ⟨false, true, true, false, false, true, "", false, false, none, fun _ => none⟩).1 ∧
    RepoManager.pullChanges
        ⟨false, false, true, true, false, true, "", false, false, none, fun _ => none⟩
      = ([Op.status, Op.log],
         .thrown (.stainless "Failed to get SDK commit hash" (some (.opErr .log)))) ∧
    Op.stashPush ∉ (RepoManager.pullChanges
        ⟨false, false, true, true, false, true, "", false, false, none, fun _ => none⟩).1 :=
  ⟨rfl, by decide, rfl, by decide⟩

/-- C3 (amended). Stash safety in pull: when the working tree is clean
at entry, `pullChanges` performs no stash operation at all; when it is
dirty and the pre-stash commit-hash read succeeds, exactly one
stash-push is performed, before the git pull, and after a successful
pull whose post-pull hash read also succeeds, a stash pop is attempted
before the post-update hook — every hook invocation in the trace occurs
after the pop.  When either commit-hash read fails, its wrapped
`StainlessError` ("Failed to get SDK commit hash") propagates: a
pre-stash failure occurs before any stash operation, and a post-pull
failure skips the stash restore. -/
theorem repoManager_stash_safety (env : RepoManager.PullEnv) :
    (env.clean = true →
      ∀ op ∈ (RepoManager.pullChanges env).1, isStashOp op = false) ∧
    (env.clean = false → env.oldHashOk = true →
      ((RepoManager.pullChanges env).1.count Op.stashPush = 1 ∧
        ∃ suf, (RepoManager.pullChanges env).1
          = [Op.status, Op.log, Op.stashPush, Op.pull] ++ suf) ∧
      (env.pullOk = true → env.newHashOk = true →
        ∃ suf, (RepoManager.pullChanges env).1
            = [Op.status, Op.log, Op.stashPush, Op.pull, Op.log, Op.stashPop] ++ suf ∧
          ∀ st c, Op.hook st c ∈ (RepoManager.pullChanges env).1 →
            Op.hook st c ∈ suf)) ∧
    (env.oldHashOk = false →
      RepoManager.pullChanges env
        = ([Op.status, Op.log],
           .thrown (.stainless "Failed to get SDK commit hash" (some (.opErr .log))))) ∧
    (env.clean = false → env.oldHashOk = true → env.pullOk = true →
      env.newHashOk = false →
      RepoManager.pullChanges env
        = ([Op.status, Op.log, Op.stashPush, Op.pull, Op.log],
           .thrown (.stainless "Failed to get SDK commit hash" (some (.opErr .log))))) := by
  refine ⟨?_, ?_, ?_, ?_⟩
  · intro h1
    cases h0 : env.oldHashOk
    · rw [pullChanges_oldHash_fail env h0]
      intro op hop
      simp only [List.mem_cons, List.not_mem_nil, or_false] at hop
      rcases hop with rfl | rfl <;> rfl
    · cases h2 : env.pullOk
      · rw [pullChanges_clean_fail env h0 h1 h2]
        intro op hop
        simp only [List.mem_cons, List.not_mem_nil, or_false] at hop
        rcases hop with rfl | rfl | rfl <;> rfl
      · cases hN : env.newHashOk
        · rw [pullChanges_clean_newHash_fail env h0 h1 h2 hN]
          intro op hop
          simp only [List.mem_cons, List.not_mem_nil, or_false] at hop
          rcases hop with rfl | rfl | rfl | rfl <;> rfl
        · rw [pullChanges_clean_ok env h0 h1 h2 hN]
          intro op hop
          rcases List.mem_append.mp hop with h | h
          · simp only [List.mem_cons, List.not_mem_nil, or_false] at h
            rcases h with rfl | rfl | rfl | rfl <;> rfl
          · exact no_stash_executePostUpdateCommand _ _ op h
  · intro h1 h0
    cases h2 : env.pullOk
    · cases h3 : env.hfpPopOk
      · rw [pullChanges_dirty_fail_noPop env h0 h1 h2 h3]
        exact ⟨⟨by decide, ⟨[Op.stashPop], rfl⟩⟩, by simp [h2]⟩
      · rw [pullChanges_dirty_fail_pop env h0 h1 h2 h3]
        exact ⟨⟨by decide, ⟨[Op.stashPop, Op.print .pullManualRecovery], rfl⟩⟩,
          by simp [h2]⟩
    · cases hN : env.newHashOk
      · rw [pullChanges_dirty_newHash_fail env h0 h1 h2 hN]
        exact ⟨⟨by decide, ⟨[Op.log], rfl⟩⟩, by simp [hN]⟩
      · cases h3 : env.popOk
        · cases hL : env.stashListOk
          · cases h5 : env.hfpPopOk
            · rw [pullChanges_dirty_ok_listFail_noPop env h0 h1 h2 hN h3 hL h5]
              refine ⟨⟨by decide, ⟨_, rfl⟩⟩, ?_⟩
              intro _ _
              refine ⟨[Op.stashList, Op.stashPop], rfl, ?_⟩
              intro st c hmem
              simp at hmem
            · rw [pullChanges_dirty_ok_listFail_pop env h0 h1 h2 hN h3 hL h5]
              refine ⟨⟨by decide, ⟨_, rfl⟩⟩, ?_⟩
              intro _ _
              refine ⟨[Op.stashList, Op.stashPop, Op.print .pullManualRecovery],
                rfl, ?_⟩
              intro st c hmem
              simp at hmem
          · rcases h4 : RepoManager.findStashRef env.stashListOut with _ | ref
            · rw [pullChanges_dirty_ok_noRef env h0 h1 h2 hN h3 hL h4]
              refine ⟨⟨by decide, ⟨[Op.log, Op.stashPop, Op.stashList], rfl⟩⟩, ?_⟩
              intro _ _
              refine ⟨[Op.stashList], rfl, ?_⟩
              intro st c hmem
              simp at hmem
            · cases h5 : env.applyOk
              · rw [pullChanges_dirty_ok_noApply env ref h0 h1 h2 hN h3 hL h4 h5]
                refine ⟨⟨?_, ⟨_, rfl⟩⟩, ?_⟩
                · simp [List.count_cons, List.count_nil]
                · intro _ _
                  refine ⟨[Op.stashList, Op.stashApply ref, Op.print .popAndResolve],
                    rfl, ?_⟩
                  intro st c hmem
                  simp at hmem
              · rw [pullChanges_dirty_ok_apply env ref h0 h1 h2 hN h3 hL h4 h5]
                refine ⟨⟨?_, ⟨_, rfl⟩⟩, ?_⟩
                · simp [List.count_cons, List.count_nil]
                · intro _ _
                  refine ⟨[Op.stashList, Op.stashApply ref, Op.print .resolveAndDrop],
                    rfl, ?_⟩
                  intro st c hmem
                  simp at hmem
        · rw [pullChanges_dirty_ok_pop env h0 h1 h2 hN h3]
          refine ⟨⟨?_, ⟨_, rfl⟩⟩, ?_⟩
          · rw [List.count_append, count_stashPush_executePostUpdateCommand]
            decide
          · intro _ _
            refine ⟨RepoManager.executePostUpdateCommand env.cfg env.sdkName, rfl, ?_⟩
            intro st c hmem
            rcases List.mem_append.mp hmem with h | h
            · simp at h
            · simp [h]
  · intro h0
    exact pullChanges_oldHash_fail env h0
  · intro h1 h0 h2 hN
    exact pullChanges_dirty_newHash_fail env h0 h1 h2 hN

/-- Witness for C3 (amended): on a dirty tree with succeeding hash
reads, pull and pop, exactly one stash-push appears, before the pull. -/
theorem repoManager_stash_safety_witness :
    ((RepoManager.pullChanges
        ⟨false, true, true, true, true, true, "", false, false, some "typescript",
          fun _ => none⟩).1.count Op.stashPush = 1 ∧
      ∃ suf, (RepoManager.pullChanges
        ⟨false, true, true, true, true, true, "", false, false, some "typescript",
          fun _ => none⟩).1
          = [Op.status, Op.log, Op.stashPush, Op.pull] ++ suf) :=
  ((repoManager_stash_safety _).2.1 rfl rfl).1

theorem findStashRef_eq {s ref : String}
    (h : RepoManager.findStashRef s = some ref) : ref = "stash@\x7b0\x7d" := by
  simp only [RepoManager.findStashRef] at h
  split at h
  · exact (Option.some.inj h).symm
  · exact absurd h (by simp)

/-- C4 (amended). When the git pull inside `pullChanges` fails while
local changes were stashed, a best-effort stash pop is attempted; if the
pop succeeds the manual-recovery instructions are printed and the
process exits with status 1; if the pop itself also fails, no
instructions are printed and no exit occurs — instead a `StainlessError`
("Failed to restore local changes after pull failed") propagates to the
caller.  When the pull fails with no stash outstanding, the error is
wrapped as "Failed to pull changes" and propagated, with no forced
exit.  (The pre-stash commit-hash read succeeding is what makes the pull
attempted at all — with it failing the call aborts before any pull.) -/
theorem repoManager_pull_failure_dichotomy (env : RepoManager.PullEnv)
    (h0 : env.oldHashOk = true) (h : env.pullOk = false) :
    (env.clean = false →
      (∃ suf, (RepoManager.pullChanges env).1
        = [Op.status, Op.log, Op.stashPush, Op.pull, Op.stashPop] ++ suf) ∧
      (env.hfpPopOk = true →
        RepoManager.pullChanges env
          = ([Op.status, Op.log, Op.stashPush, Op.pull, Op.stashPop,
              Op.print .pullManualRecovery], .exited 1)) ∧
      (env.hfpPopOk = false →
        RepoManager.pullChanges env
          = ([Op.status, Op.log, Op.stashPush, Op.pull, Op.stashPop],
             .thrown (.stainless "Failed to restore local changes after pull failed"
               (some (.opErr .stashPop)))))) ∧
    (env.clean = true →
      RepoManager.pullChanges env
        = ([Op.status, Op.log, Op.pull],
           .thrown (.stainless "Failed to pull changes" (some (.opErr .pull))))) := by
  constructor
  · intro h1
    refine ⟨?_, ?_, ?_⟩
    · cases h3 : env.hfpPopOk
      · exact ⟨[], by rw [pullChanges_dirty_fail_noPop env h0 h1 h h3]; rfl⟩
      · exact ⟨[Op.print .pullManualRecovery],
          by rw [pullChanges_dirty_fail_pop env h0 h1 h h3]; rfl⟩
    · exact fun h3 => pullChanges_dirty_fail_pop env h0 h1 h h3
    · exact fun h3 => pullChanges_dirty_fail_noPop env h0 h1 h h3
  · exact fun h1 => pullChanges_clean_fail env h0 h1 h

/-- Counterexample to C4 as stated: on a dirty tree whose pull fails and
whose subsequent restore pop also fails, `pullChanges` does not
terminate the process with a non-zero status and prints no
manual-recovery instructions — it throws a `StainlessError` instead
(src/src/RepoManager.ts lines 398-400). -/
theorem repoManager_pull_failure_dichotomy_cex :
    (RepoManager.pullChanges
        ⟨false, true, false, true, false, true, "", false, false, none, fun _ => none⟩).2
      = .thrown (.stainless "Failed to restore local changes after pull failed"
          (some (.opErr .stashPop))) ∧
    (∀ c, (RepoManager.pullChanges
        ⟨false, true, false, true, false, true, "", false, false, none,
          fun _ => none⟩).2 ≠ .exited c) ∧
    Op.print .pullManualRecovery
      ∉ (RepoManager.pullChanges
        ⟨false, true, false, true, false, true, "", false, false, none,
          fun _ => none⟩).1 := by
  have h := pullChanges_dirty_fail_noPop
    (⟨false, true, false, true, false, true, "", false, false, none,
      fun _ => none⟩ : RepoManager.PullEnv) rfl rfl rfl rfl
  refine ⟨by rw [h], ?_, ?_⟩
  · intro c hc
    rw [h] at hc
    simp at hc
  · rw [h]
    decide

/-- Witness for C4 (amended): clean tree, failing pull — the wrapped
error propagates. -/
theorem repoManager_pull_failure_dichotomy_witness :
    RepoManager.pullChanges
        ⟨true, true, false, true, false, true, "", false, false, none, fun _ => none⟩
      = ([Op.status, Op.log, Op.pull],
         .thrown (.stainless "Failed to pull changes" (some (.opErr .pull)))) :=
  (repoManager_pull_failure_dichotomy _ rfl rfl).2 rfl

/-- Counterexample to C5 as stated: when the stash pop fails and the
subsequent `stash(["list"])` read itself throws, no `stash apply` is
attempted, the process does not exit, and what propagates is the raw
simple-git error, not a structured `StainlessError` — an outcome outside
the claim's dichotomy. -/
theorem repoManager_stash_restore_fallback_cex :
    RepoManager.restoreStashedChanges
        ⟨false, true, true, true, false, false, "", false, false, none, fun _ => none⟩
      = ([Op.stashPop, Op.stashList], .thrown (.opErr .stashList)) ∧
    (∀ r, Op.stashApply r ∉ (RepoManager.restoreStashedChanges
        ⟨false, true, true, true, false, false, "", false, false, none,
          fun _ => none⟩).1) ∧
    (∀ c, (RepoManager.restoreStashedChanges
        ⟨false, true, true, true, false, false, "", false, false, none,
          fun _ => none⟩).2 ≠ .exited c) ∧
    Err.isStainless (.opErr .stashList) = false := by
  refine ⟨rfl, ?_, ?_, rfl⟩
  · intro r hr
    have he : (RepoManager.restoreStashedChanges
        ⟨false, true, true, true, false, false, "", false, false, none,
          fun _ => none⟩).1 = [Op.stashPop, Op.stashList] := rfl
    rw [he] at hr
    simp at hr
  · intro c hc
    have he : (RepoManager.restoreStashedChanges
        ⟨false, true, true, true, false, false, "", false, false, none,
          fun _ => none⟩).2 = .thrown (.opErr .stashList) := rfl
    rw [he] at hc
    simp at hc

/-- C5 (amended). Stash-restore fallback: `restoreStashedChanges` first
attempts `stash pop`; on pop failure it reads the stash listing — when
that read itself fails, the raw (non-Stainless) error propagates with no
apply attempt and no exit; when the listing is read, it parses the most
recent stash entry (`stash@\x7b0\x7d`) from its first line; when a
reference is found it attempts `stash apply` on it, then (conflicts may
exist) instructs resolve-and-drop and exits 1 if the apply succeeded, or
instructs pop-and-resolve-manually and exits 1 if the apply failed; when
no stash reference is found in a successfully read listing it throws a
structured `StainlessError` instead of exiting. -/
theorem repoManager_stash_restore_fallback (env : RepoManager.PullEnv) :
    (env.popOk = true →
      RepoManager.restoreStashedChanges env = ([Op.stashPop], .ok)) ∧
    (env.popOk = false → env.stashListOk = false →
      RepoManager.restoreStashedChanges env
        = ([Op.stashPop, Op.stashList], .thrown (.opErr .stashList)) ∧
      Err.isStainless (.opErr .stashList) = false) ∧
    (env.popOk = false → env.stashListOk = true →
      (∀ ref, RepoManager.findStashRef env.stashListOut = some ref →
        ref = "stash@\x7b0\x7d" ∧
        (env.applyOk = true →
          RepoManager.restoreStashedChanges env
            = ([Op.stashPop, Op.stashList, Op.stashApply ref, Op.print .resolveAndDrop],
               .exited 1)) ∧
        (env.applyOk = false →
          RepoManager.restoreStashedChanges env
            = ([Op.stashPop, Op.stashList, Op.stashApply ref, Op.print .popAndResolve],
               .exited 1))) ∧
      (RepoManager.findStashRef env.stashListOut = none →
        RepoManager.restoreStashedChanges env
          = ([Op.stashPop, Op.stashList],
             .thrown (.stainless "Failed to reapply local changes and could not find stash reference"
               (some (.opErr .stashPop)))))) := by
  refine ⟨?_, ?_, ?_⟩
  · intro h1
    simp [RepoManager.restoreStashedChanges, h1]
  · intro h1 hL
    exact ⟨by simp [RepoManager.restoreStashedChanges, h1, hL], rfl⟩
  · intro h1 hL
    constructor
    · intro ref h2
      refine ⟨findStashRef_eq h2, ?_, ?_⟩
      · intro h5
        simp [RepoManager.restoreStashedChanges, h1, hL, h2, h5]
      · intro h5
        simp [RepoManager.restoreStashedChanges, h1, hL, h2, h5]
    · intro h2
      simp [RepoManager.restoreStashedChanges, h1, hL, h2]

/-- Witness for C5 (amended): a failing pop with a successfully read
listing whose first line names `stash@\x7b0\x7d` and a succeeding apply
leads to the resolve-and-drop instructions and exit 1. -/
theorem repoManager_stash_restore_fallback_witness :
    RepoManager.restoreStashedChanges
        ⟨false, true, true, true, false, true, "stash@\x7b0\x7d: WIP on main: abc",
          true, false, none, fun _ => none⟩
      = ([Op.stashPop, Op.stashList, Op.stashApply "stash@\x7b0\x7d",
          Op.print .resolveAndDrop], .exited 1) :=
  ((((repoManager_stash_restore_fallback _).2.2 rfl rfl).1 "stash@\x7b0\x7d"
    (by decide)).2.1) rfl

namespace RepoManager

/-- The error message of lines 187-190, naming the existing directory's
remote (or "unknown") and the configured URL. -/
def mismatchMsg (targetDir shown sdkRepo : String) : String :=
  "Directory " ++ targetDir ++ " contains a different repository (" ++ shown
    ++ "). Expected " ++ sdkRepo ++ ". Please remove the directory manually and try again."

/-- Environment of the steps `updateExistingRepo` performs after the
repository-identity check passes (lines 193-198). -/
structure UpdateEnv where
  /-- Whether `fetch()` at line 194 succeeds. -/
  fetchOk : Bool
  /-- The outcome of `handleBranchSwitch()` (line 196; its body at lines
  245-287 can return, throw, or exit — it is abstracted by its
  outcome here). -/
  branchSwitch : Outcome
  /-- The environment of the nested `pullChanges()` call (line 197). -/
  pullEnv : PullEnv
  /-- Whether `getCurrentSdkCommitHash()` at line 198 succeeds. -/
  finalHashOk : Bool

/-- The post-identity-check part of `updateExistingRepo` (lines
193-198): fetch — a failure is a raw simple-git error that the catch at
lines 199-202 wraps as "Failed to update existing repository"; then
`handleBranchSwitch` — a `StainlessError` from it is rethrown unchanged,
any other thrown error is wrapped, and a `process.exit` terminates; then
the nested `pullChanges` (whose thrown outcomes are always
`StainlessError`s, so the catch rethrows them unchanged); then the final
hash read, whose `StainlessError` is also rethrown unchanged. -/
def proceedUpdate (env : UpdateEnv) : List Op × Outcome :=
  if env.fetchOk = false then
    ([.fetch], .thrown (.stainless "Failed to update existing repository"
      (some (.opErr .fetch))))
  else
    match env.branchSwitch with
    | .exited c => ([.fetch, .branchSwitchCall], .exited c)
    | .thrown e =>
      ([.fetch, .branchSwitchCall],
        .thrown (if e.isStainless then e
          else .stainless "Failed to update existing repository" (some e)))
    | .ok =>
      match pullChanges env.pullEnv with
      | (pt, .ok) =>
        if env.finalHashOk then ([.fetch, .branchSwitchCall] ++ pt ++ [.log], .ok)
        else
          ([.fetch, .branchSwitchCall] ++ pt ++ [.log],
            .thrown (.stainless "Failed to get SDK commit hash" (some (.opErr .log))))
      | (pt, .exited c) => ([.fetch, .branchSwitchCall] ++ pt, .exited c)
      | (pt, .thrown e) => ([.fetch, .branchSwitchCall] ++ pt, .thrown e)

/-- `updateExistingRepo` (lines 179-203): read the remotes; when the
first remote's fetch URL is falsy or not the same repository as the
configured one, throw the mismatch `StainlessError` (lines 186-191);
otherwise proceed with fetch, branch reconciliation, pull and the hash
read (`proceedUpdate`). -/
def updateExistingRepo (targetDir sdkRepo : String) (originUrl : Option String)
    (env : UpdateEnv) : List Op × Outcome :=
  let ou := originUrl.getD ""
  if ou = "" then
    ([.getRemotes], .thrown (.stainless (mismatchMsg targetDir "unknown" sdkRepo) none))
  else if isSameRepository ou sdkRepo then
    ([.getRemotes] ++ (proceedUpdate env).1, (proceedUpdate env).2)
  else
    ([.getRemotes], .thrown (.stainless (mismatchMsg targetDir ou sdkRepo) none))

end RepoManager

theorem proceedUpdate_head (env : RepoManager.UpdateEnv) :
    ∃ suf, (RepoManager.proceedUpdate env).1 = Op.fetch :: suf := by
  unfold RepoManager.proceedUpdate
  cases hf : env.fetchOk
  · exact ⟨[], rfl⟩
  · simp only [Bool.true_eq_false, if_false]
    cases hb : env.branchSwitch
    · rcases hp : RepoManager.pullChanges env.pullEnv with ⟨pt, o⟩
      cases o
      · cases hfin : env.finalHashOk <;>
          exact ⟨Op.branchSwitchCall :: pt ++ [Op.log], by simp [hfin]⟩
      · exact ⟨Op.branchSwitchCall :: pt, by simp⟩
      · exact ⟨Op.branchSwitchCall :: pt, by simp⟩
    · exact ⟨[Op.branchSwitchCall], rfl⟩
    · exact ⟨[Op.branchSwitchCall], rfl⟩

theorem isSameRepository_eq_true_iff (u1 u2 : String) :
    RepoManager.isSameRepository u1 u2 = true ↔
      (RepoManager.getRepoPath u1 ≠ "" ∧
        RepoManager.getRepoPath u1 = RepoManager.getRepoPath u2) := by
  unfold RepoManager.isSameRepository
  constructor
  · intro h
    simp only [Bool.and_eq_true, Bool.not_eq_true', beq_eq_false_iff_ne, ne_eq,
      beq_iff_eq] at h
    exact ⟨h.1.1, h.2⟩
  · rintro ⟨hne, heq⟩
    simp only [Bool.and_eq_true, Bool.not_eq_true', beq_eq_false_iff_ne, ne_eq,
      beq_iff_eq]
    exact ⟨⟨hne, by rw [← heq]; exact hne⟩, heq⟩

theorem substr_mismatchMsg (targetDir shown sdkRepo : String) :
    shown.data <:+: (RepoManager.mismatchMsg targetDir shown sdkRepo).data ∧
    sdkRepo.data <:+: (RepoManager.mismatchMsg targetDir shown sdkRepo).data ∧
    "Please remove the directory manually and try again.".data
      <:+: (RepoManager.mismatchMsg targetDir shown sdkRepo).data := by
  refine ⟨?_, ?_, ?_⟩
  · refine ⟨("Directory " ++ targetDir ++ " contains a different repository (").data,
      ("). Expected " ++ sdkRepo
        ++ ". Please remove the directory manually and try again.").data, ?_⟩
    simp [RepoManager.mismatchMsg, String.data_append, List.append_assoc]
  · refine ⟨("Directory " ++ targetDir ++ " contains a different repository (" ++ shown
        ++ "). Expected ").data,
      ". Please remove the directory manually and try again.".data, ?_⟩
    simp [RepoManager.mismatchMsg, String.data_append, List.append_assoc]
  · have h1 : (". Please remove the directory manually and try again.").data
        <:+: (RepoManager.mismatchMsg targetDir shown sdkRepo).data := by
      refine ⟨("Directory " ++ targetDir ++ " contains a different repository (" ++ shown
        ++ "). Expected " ++ sdkRepo).data, [], ?_⟩
      simp [RepoManager.mismatchMsg, String.data_append, List.append_assoc]
    exact List.IsInfix.trans (by decide) h1

/-- C7. Repository identity check: when the existing clone's remote URL
and the configured URL extract the same nonempty `org/repo` path (the
extraction, `getRepoPath`, ignores protocol, host prefix and the
trailing `.git`), `updateExistingRepo` proceeds to fetch and update —
its trace continues past the identity check into the fetch (and, when
the fetch, branch reconciliation, pull and final hash read all succeed,
the whole call returns normally); for every pair not extracting the same
path it fails with a thrown `StainlessError` whose message contains both
URLs and the instruction to remove the directory manually. -/
theorem repoManager_repository_identity (targetDir sdkRepo u : String)
    (env : RepoManager.UpdateEnv) :
    (RepoManager.getRepoPath u ≠ "" ∧
        RepoManager.getRepoPath u = RepoManager.getRepoPath sdkRepo →
      (∃ suf, (RepoManager.updateExistingRepo targetDir sdkRepo (some u) env).1
          = [Op.getRemotes, Op.fetch] ++ suf) ∧
      (env.fetchOk = true → env.branchSwitch = .ok →
        (RepoManager.pullChanges env.pullEnv).2 = .ok → env.finalHashOk = true →
        (RepoManager.updateExistingRepo targetDir sdkRepo (some u) env).2 = .ok)) ∧
    (¬(RepoManager.getRepoPath u ≠ "" ∧
        RepoManager.getRepoPath u = RepoManager.getRepoPath sdkRepo) →
      ∃ M, RepoManager.updateExistingRepo targetDir sdkRepo (some u) env
          = ([Op.getRemotes], .thrown (.stainless M none)) ∧
        u.data <:+: M.data ∧ sdkRepo.data <:+: M.data ∧
        "Please remove the directory manually and try again.".data <:+: M.data) := by
  constructor
  · intro hsame'
    have hsame := (isSameRepository_eq_true_iff u sdkRepo).mpr hsame'
    have hu : ¬(u = "") := by
      intro h
      exact hsame'.1 (by rw [h]; rfl)
    constructor
    · obtain ⟨suf, hsuf⟩ := proceedUpdate_head env
      refine ⟨suf, ?_⟩
      simp [RepoManager.updateExistingRepo, hu, hsame, hsuf]
    · intro hf hb hp hfin
      rcases hpe : RepoManager.pullChanges env.pullEnv with ⟨pt, o⟩
      rw [hpe] at hp
      simp only at hp
      subst hp
      simp [RepoManager.updateExistingRepo, RepoManager.proceedUpdate,
        hu, hsame, hf, hb, hpe, hfin]
  · intro hns
    by_cases hu : u = ""
    · refine ⟨RepoManager.mismatchMsg targetDir "unknown" sdkRepo,
        by simp [RepoManager.updateExistingRepo, hu], ?_,
        (substr_mismatchMsg targetDir "unknown" sdkRepo).2.1,
        (substr_mismatchMsg targetDir "unknown" sdkRepo).2.2⟩
      rw [hu]
      exact List.nil_infix
    · have hsame : RepoManager.isSameRepository u sdkRepo = false := by
        cases hb : RepoManager.isSameRepository u sdkRepo with
        | false => rfl
        | true => exact absurd ((isSameRepository_eq_true_iff u sdkRepo).mp hb) hns
      exact ⟨RepoManager.mismatchMsg targetDir u sdkRepo,
        by simp [RepoManager.updateExistingRepo, hu, hsame],
        (substr_mismatchMsg targetDir u sdkRepo).1,
        (substr_mismatchMsg targetDir u sdkRepo).2.1,
        (substr_mismatchMsg targetDir u sdkRepo).2.2⟩

/-- Witness for C7: the spec's example pair — an SSH-style and an
HTTPS-style URL for the same `org/repo` — both extract `org/repo`, and
with every subsequent step succeeding `updateExistingRepo` proceeds and
returns normally. -/
theorem repoManager_repository_identity_witness :
    RepoManager.getRepoPath "git@host:org/repo.git" = "org/repo" ∧
    RepoManager.getRepoPath "https://host/org/repo.git" = "org/repo" ∧
    (RepoManager.updateExistingRepo "./sdk" "https://host/org/repo.git"
        (some "git@host:org/repo.git")
        ⟨true, .ok,
          ⟨true, true, true, true, true, true, "", true, true, none, fun _ => none⟩,
          true⟩).2 = .ok :=
  ⟨by decide, by decide,
    ((repoManager_repository_identity "./sdk" "https://host/org/repo.git"
      "git@host:org/repo.git" _).1 ⟨by decide, by decide⟩).2 rfl rfl rfl rfl⟩

namespace RepoManager

/-- Environment of one `hasNewChanges` call (lines 143-154): whether the
fetch and the two log calls succeed, and the hashes they report
(`log.latest?.hash ?? ""`). -/
structure ChangesEnv where
  fetchOk : Bool
  localLogOk : Bool
  localHash : String
  remoteLogOk : Bool
  remoteHash : String

/-- `hasNewChanges` (lines 143-154): fetch; read the local HEAD hash via
`getCurrentSdkCommitHash` (lines 112-119, which wraps its own log
failure as "Failed to get SDK commit hash"); read the tip hash of
`origin/<branch>` via `log`; return the inequality of the two hashes.
Any failure is wrapped by the catch as "Failed to check for new changes"
with the underlying error as cause. -/
def hasNewChanges (env : ChangesEnv) : Except Err Bool :=
  if env.fetchOk then
    if env.localLogOk then
      if env.remoteLogOk then
        .ok (env.localHash != env.remoteHash)
      else
        .error (.stainless "Failed to check for new changes" (some (.opErr .log)))
    else
      .error (.stainless "Failed to check for new changes"
        (some (.stainless "Failed to get SDK commit hash" (some (.opErr .log)))))
  else
    .error (.stainless "Failed to check for new changes" (some (.opErr .fetch)))

end RepoManager

/-- C8. Change-detection symmetry: with fetch and both logs succeeding,
`hasNewChanges` returns exactly the inequality of the local HEAD hash
and the remote tracked branch's tip hash — `ok false` when they are
equal (as after a pull has equalized them), `ok true` when they differ
(as after a remote-only commit); any fetch/log failure yields a
propagated `StainlessError` ("Failed to check for new changes") instead
of a boolean. -/
theorem repoManager_change_detection (env : RepoManager.ChangesEnv) :
    (env.fetchOk = true → env.localLogOk = true → env.remoteLogOk = true →
      RepoManager.hasNewChanges env = .ok (env.localHash != env.remoteHash) ∧
      (env.localHash = env.remoteHash → RepoManager.hasNewChanges env = .ok false) ∧
      (env.localHash ≠ env.remoteHash → RepoManager.hasNewChanges env = .ok true)) ∧
    (env.fetchOk = false ∨ env.localLogOk = false ∨ env.remoteLogOk = false →
      ∃ e, RepoManager.hasNewChanges env
        = .error (.stainless "Failed to check for new changes" (some e))) := by
  constructor
  · intro h1 h2 h3
    refine ⟨by simp [RepoManager.hasNewChanges, h1, h2, h3], ?_, ?_⟩
    · intro he
      simp [RepoManager.hasNewChanges, h1, h2, h3, he]
    · intro he
      have hb : (env.localHash != env.remoteHash) = true := bne_iff_ne.mpr he
      simp [RepoManager.hasNewChanges, h1, h2, h3, hb]
  · intro h
    rcases h with h | h | h
    · exact ⟨.opErr .fetch, by simp [RepoManager.hasNewChanges, h]⟩
    · cases hf : env.fetchOk
      · exact ⟨.opErr .fetch, by simp [RepoManager.hasNewChanges, hf]⟩
      · exact ⟨.stainless "Failed to get SDK commit hash" (some (.opErr .log)),
          by simp [RepoManager.hasNewChanges, hf, h]⟩
    · cases hf : env.fetchOk
      · exact ⟨.opErr .fetch, by simp [RepoManager.hasNewChanges, hf]⟩
      · cases hl : env.localLogOk
        · exact ⟨.stainless "Failed to get SDK commit hash" (some (.opErr .log)),
            by simp [RepoManager.hasNewChanges, hf, hl]⟩
        · exact ⟨.opErr .log, by simp [RepoManager.hasNewChanges, hf, hl, h]⟩

/-- Witness for C8: equal hashes give `ok false`; differing hashes give
`ok true`; a failing fetch gives the wrapped error. -/
theorem repoManager_change_detection_witness :
    RepoManager.hasNewChanges ⟨true, true, "abc", true, "abc"⟩ = .ok false ∧
    RepoManager.hasNewChanges ⟨true, true, "abc", true, "def"⟩ = .ok true ∧
    (∃ e, RepoManager.hasNewChanges ⟨false, true, "abc", true, "abc"⟩
      = .error (.stainless "Failed to check for new changes" (some e))) :=
  ⟨((repoManager_change_detection ⟨true, true, "abc", true, "abc"⟩).1 rfl rfl rfl).2.1 rfl,
   ((repoManager_change_detection ⟨true, true, "abc", true, "def"⟩).1 rfl rfl rfl).2.2
     (by decide),
   (repoManager_change_detection ⟨false, true, "abc", true, "abc"⟩).2 (Or.inl rfl)⟩

namespace RepoManager

/-- One iteration's external observations in `waitForRemoteBranch`
(lines 124-138): whether `fetch()` and `branch(["-r"])` succeed, and the
remote branch list the latter reports. -/
structure WaitAttempt where
  fetchOk : Bool
  branchListOk : Bool
  branches : List String

/-- Whether the iteration returns: the try-block reaches the
`includes` test only when fetch and listing both succeed (a throw from
either is swallowed by the catch, line 132-134, and the loop retries),
and returns exactly when `origin/<branch>` is listed. -/
def observesBranch (branch : String) (a : WaitAttempt) : Bool :=
  a.fetchOk && a.branchListOk && a.branches.contains ("origin/" ++ branch)

/-- `waitForRemoteBranch` (lines 124-138), with the unbounded
`while (true)` loop run for `fuel` iterations starting at attempt index
`i`: returns the index of the first iteration that observes the branch,
or `none` when the observation window is exhausted (the real loop simply
keeps going — there is no error result).  The sleep between iterations
does not affect the result. -/
def waitForRemoteBranchAux (branch : String) (attempts : Nat → WaitAttempt) :
    Nat → Nat → Option Nat
  | 0, _ => none
  | fuel + 1, i =>
    if observesBranch branch (attempts i) then some i
    else waitForRemoteBranchAux branch attempts fuel (i + 1)

/-- The loop started from attempt 0. -/
def waitForRemoteBranch (branch : String) (attempts : Nat → WaitAttempt)
    (fuel : Nat) : Option Nat :=
  waitForRemoteBranchAux branch attempts fuel 0

end RepoManager

theorem waitAux_some_iff (branch : String) (attempts : Nat → RepoManager.WaitAttempt) :
    ∀ (fuel k i : Nat),
      RepoManager.waitForRemoteBranchAux branch attempts fuel k = some i ↔
        (k ≤ i ∧ i < k + fuel ∧
          RepoManager.observesBranch branch (attempts i) = true ∧
          ∀ j, k ≤ j → j < i →
            RepoManager.observesBranch branch (attempts j) = false) := by
  intro fuel
  induction fuel with
  | zero =>
    intro k i
    simp only [RepoManager.waitForRemoteBranchAux]
    constructor
    · intro h
      exact absurd h (by simp)
    · rintro ⟨h1, h2, _⟩
      omega
  | succ fuel ih =>
    intro k i
    simp only [RepoManager.waitForRemoteBranchAux]
    by_cases hobs : RepoManager.observesBranch branch (attempts k) = true
    · rw [if_pos hobs]
      constructor
      · intro h
        have hk : k = i := Option.some.inj h
        subst hk
        exact ⟨Nat.le_refl k, by omega, hobs, fun j hj1 hj2 => by omega⟩
      · rintro ⟨h1, h2, h3, h4⟩
        have hik : i = k := by
          by_contra hne
          have hlt : k < i := Nat.lt_of_le_of_ne h1 (fun h => hne h.symm)
          have := h4 k (Nat.le_refl k) hlt
          exact absurd hobs (by simp [this])
        subst hik
        rfl
    · rw [if_neg hobs]
      have hobs' : RepoManager.observesBranch branch (attempts k) = false := by
        cases hb : RepoManager.observesBranch branch (attempts k)
        · rfl
        · exact absurd hb hobs
      rw [ih (k + 1) i]
      constructor
      · rintro ⟨h1, h2, h3, h4⟩
        refine ⟨by omega, by omega, h3, ?_⟩
        intro j hj1 hj2
        rcases Nat.eq_or_lt_of_le hj1 with rfl | hlt
        · exact hobs'
        · exact h4 j hlt hj2
      · rintro ⟨h1, h2, h3, h4⟩
        refine ⟨?_, by omega, h3, fun j hj1 hj2 => h4 j (by omega) hj2⟩
        rcases Nat.eq_or_lt_of_le h1 with rfl | hlt
        · exact absurd h3 (by simp [hobs'])
        · omega

theorem waitAux_none_iff (branch : String) (attempts : Nat → RepoManager.WaitAttempt) :
    ∀ (fuel k : Nat),
      RepoManager.waitForRemoteBranchAux branch attempts fuel k = none ↔
        ∀ j, k ≤ j → j < k + fuel →
          RepoManager.observesBranch branch (attempts j) = false := by
  intro fuel
  induction fuel with
  | zero =>
    intro k
    simp only [RepoManager.waitForRemoteBranchAux]
    constructor
    · intro _ j hj1 hj2
      omega
    · intro _
      trivial
  | succ fuel ih =>
    intro k
    simp only [RepoManager.waitForRemoteBranchAux]
    by_cases hobs : RepoManager.observesBranch branch (attempts k) = true
    · rw [if_pos hobs]
      constructor
      · intro h
        exact absurd h (by simp)
      · intro h
        have := h k (Nat.le_refl k) (by omega)
        exact absurd hobs (by simp [this])
    · rw [if_neg hobs]
      have hobs' : RepoManager.observesBranch branch (attempts k) = false := by
        cases hb : RepoManager.observesBranch branch (attempts k)
        · rfl
        · exact absurd hb hobs
      rw [ih (k + 1)]
      constructor
      · intro h j hj1 hj2
        rcases Nat.eq_or_lt_of_le hj1 with rfl | hlt
        · exact hobs'
        · exact h j hlt (by omega)
      · intro h j hj1 hj2
        exact h j (by omega) (by omega)

/-- C9. Branch availability wait: `waitForRemoteBranch` returns exactly
at the first iteration whose fetch and branch listing succeed and list
`origin/<branch>`; within any finite observation window in which no
iteration observes the branch it is still waiting (`none`) — it has no
error result at all; and an iteration whose fetch fails never observes
the branch (the error is swallowed and the loop retries). -/
theorem repoManager_wait_for_remote_branch (branch : String)
    (attempts : Nat → RepoManager.WaitAttempt) (fuel i : Nat) :
    (RepoManager.waitForRemoteBranch branch attempts fuel = some i ↔
      (i < fuel ∧ RepoManager.observesBranch branch (attempts i) = true ∧
        ∀ j < i, RepoManager.observesBranch branch (attempts j) = false)) ∧
    (RepoManager.waitForRemoteBranch branch attempts fuel = none ↔
      ∀ j < fuel, RepoManager.observesBranch branch (attempts j) = false) ∧
    (∀ a : RepoManager.WaitAttempt, a.fetchOk = false →
      RepoManager.observesBranch branch a = false) := by
  refine ⟨?_, ?_, ?_⟩
  · rw [RepoManager.waitForRemoteBranch, waitAux_some_iff]
    constructor
    · rintro ⟨h1, h2, h3, h4⟩
      exact ⟨by omega, h3, fun j hj => h4 j (by omega) hj⟩
    · rintro ⟨h1, h2, h3⟩
      exact ⟨by omega, by omega, h2, fun j _ hj => h3 j hj⟩
  · rw [RepoManager.waitForRemoteBranch, waitAux_none_iff]
    constructor
    · intro h j hj
      exact h j (by omega) (by omega)
    · intro h j _ hj
      exact h j (by omega)
  · intro a ha
    simp [RepoManager.observesBranch, ha]

/-- Witness for C9: two failing attempts (swallowed) followed by an
observing one — the wait returns index 2. -/
theorem repoManager_wait_for_remote_branch_witness :
    RepoManager.waitForRemoteBranch "main"
        (fun j => if j < 2 then ⟨false, false, []⟩ else ⟨true, true, ["origin/main"]⟩) 5
      = some 2 :=
  (repoManager_wait_for_remote_branch "main"
      (fun j => if j < 2 then ⟨false, false, []⟩ else ⟨true, true, ["origin/main"]⟩)
      5 2).1.mpr ⟨by decide, by decide, by decide⟩

namespace StainlessTools

/-- The three calls made by `StainlessTools.clone`
(src/unnamed/part_015 lines 318-330). -/
inductive CloneStep where
  | publishFiles
  | initializeRepo
  | startWatcher
deriving DecidableEq, Repr

/-- Environment of one `clone` call: whether the initial
`fileWatcher.publishFiles()` and `repoManager.initializeRepo()` succeed,
and the `StainlessError`s they throw when they fail (both methods wrap
every failure in a `StainlessError`, which the catch at lines 326-329
rethrows unchanged). -/
structure CloneEnv where
  publishOk : Bool
  initOk : Bool
  publishErr : Err
  initErr : Err

/-- `clone` (src/unnamed/part_015 lines 318-330): first
`await this.fileWatcher.publishFiles()` ("Always publish files since
openApiFile is required"), then `await this.repoManager.initializeRepo()`,
then `this.fileWatcher.start()`. -/
def clone (env : CloneEnv) : List CloneStep × Outcome :=
  if env.publishOk then
    if env.initOk then
      ([.publishFiles, .initializeRepo, .startWatcher], .ok)
    else
      ([.publishFiles, .initializeRepo], .thrown env.initErr)
  else
    ([.publishFiles], .thrown env.publishErr)

end StainlessTools

/-- Counterexample to C6 as stated: in a fully successful startup,
`StainlessTools.clone` performs the first publish of the specification
files BEFORE the repository initialization — `initializeRepo` does not
precede `publishFiles` in the call sequence (indexes 1 and 0). -/
theorem stainlessTools_startup_ordering_cex :
    (StainlessTools.clone ⟨true, true, .opErr .apiPublish, .opErr .pull⟩).1
      = [.publishFiles, .initializeRepo, .startWatcher] ∧
    ¬((StainlessTools.clone ⟨true, true, .opErr .apiPublish, .opErr .pull⟩).1.indexOf
          StainlessTools.CloneStep.initializeRepo
        < (StainlessTools.clone ⟨true, true, .opErr .apiPublish, .opErr .pull⟩).1.indexOf
          StainlessTools.CloneStep.publishFiles) :=
  ⟨rfl, by decide⟩

/-- C6 (amended). Startup ordering in `StainlessTools.clone`: the first
publish of the specification files is attempted before repository
initialization; `initializeRepo` runs only when that publish succeeded,
and the file watcher starts only after initialization also completes
(the call returns `ok` exactly then). -/
theorem stainlessTools_startup_ordering (env : StainlessTools.CloneEnv) :
    (StainlessTools.clone env).1.head? = some .publishFiles ∧
    (StainlessTools.CloneStep.initializeRepo ∈ (StainlessTools.clone env).1 ↔
      env.publishOk = true) ∧
    (StainlessTools.CloneStep.startWatcher ∈ (StainlessTools.clone env).1 ↔
      (env.publishOk = true ∧ env.initOk = true)) ∧
    ((StainlessTools.clone env).2 = .ok ↔
      (env.publishOk = true ∧ env.initOk = true)) := by
  rcases env with ⟨pok, iok, pe, ie⟩
  cases pok <;> cases iok <;>
    simp [StainlessTools.clone]

/-- Witness for C6 (amended), at the all-successful environment. -/
theorem stainlessTools_startup_ordering_witness :
    (StainlessTools.clone ⟨true, true, .opErr .apiPublish, .opErr .pull⟩).1.head?
      = some StainlessTools.CloneStep.publishFiles :=
  (stainlessTools_startup_ordering ⟨true, true, .opErr .apiPublish, .opErr .pull⟩).1

namespace RepoManager

/-- Environment of one `cloneFreshRepo` call (lines 205-233): whether
`origin/<branch>` is already listed remotely (line 217), and the
sdkName/lifecycle configuration used by `executePostCloneCommand`. -/
structure CloneRepoEnv where
  branchExists : Bool
  sdkName : Option String
  cfg : LifecycleManager.LifecycleConfig

/-- `cloneFreshRepo` (lines 205-233), with all git operations modeled as
succeeding (their failures are wrapped by the catch at line 230-232 and
are not relevant to the hook-gating claim): mkdir, `git init`,
`addRemote`, fetch, list remote branches, wait for the branch when it is
absent (line 221), fetch it, check it out, read the hash, then
`executePostCloneCommand` (line 229). -/
def cloneFreshRepo (env : CloneRepoEnv) : List Op :=
  [.mkdir, .gitInit, .addRemote, .fetch, .branchList]
    ++ (if env.branchExists then [] else [.waitForBranch])
    ++ [.fetch, .checkout, .log]
    ++ executePostCloneCommand env.cfg env.sdkName

end RepoManager

namespace FileWatcher

/-- The `files` description string built at lines 173-178 of
src/unnamed/part_008 (`filter(Boolean).join(" and ")`). -/
def filesDesc (openApi : String) (cfgFile : Option String) : String :=
  match cfgFile with
  | some c =>
    if c = "" then "OpenAPI (" ++ openApi ++ ")"
    else "OpenAPI (" ++ openApi ++ ") and Stainless config (" ++ c ++ ")"
  | none => "OpenAPI (" ++ openApi ++ ")"

/-- Environment of one `publishFiles` call (src/unnamed/part_008 lines
132-192): the configured file options, whether a lifecycle manager was
passed, the sdkName and lifecycle configuration, and the outcomes of the
two file reads and the publish HTTP call. -/
structure PublishEnv where
  openApiFile : Option String
  stainlessConfigFile : Option String
  hasLifecycleManager : Bool
  sdkName : Option String
  cfg : LifecycleManager.LifecycleConfig
  readSpecOk : Bool
  readConfigOk : Bool
  apiPublishOk : Bool
  /-- The error thrown by `stainlessApi.publish` when it fails. -/
  apiErr : Err

/-- `publishFiles` (src/unnamed/part_008 lines 132-192): fail when no
OpenAPI file is configured; run the pre-publish hook only when both a
lifecycle manager and a truthy sdkName are present (lines 138-144); read
the spec file, then the config file when configured, each failure thrown
as a `StainlessError` naming that file; publish via the API client — a
failing publish's error is rethrown unchanged when it is already a
`StainlessError` (lines 180-182) and otherwise wrapped with the
description of the files being published (line 184).  Every value this
method throws is therefore a `StainlessError`, and the outer catch
rethrows it unchanged.  Hook commands are modeled as succeeding. -/
def publishFiles (env : PublishEnv) : List Op × Outcome :=
  if truthy env.openApiFile = false then
    ([], .thrown (.stainless "OpenAPI specification file is required" none))
  else
    let hookOps :=
      if env.hasLifecycleManager && truthy env.sdkName then
        LifecycleManager.executePrePublishSpec env.cfg (env.sdkName.getD "")
      else []
    if env.readSpecOk = false then
      (hookOps ++ [.readSpec],
        .thrown (.stainless ("Failed to read OpenAPI file ("
          ++ env.openApiFile.getD "" ++ ")") (some (.opErr .readSpec))))
    else if truthy env.stainlessConfigFile && !env.readConfigOk then
      (hookOps ++ [.readSpec, .readConfig],
        .thrown (.stainless ("Failed to read Stainless config file ("
          ++ env.stainlessConfigFile.getD "" ++ ")") (some (.opErr .readConfig))))
    else
      let readOps := hookOps ++ [.readSpec]
        ++ (if truthy env.stainlessConfigFile then [.readConfig] else [])
      if env.apiPublishOk then (readOps ++ [.apiPublish], .ok)
      else
        (readOps ++ [.apiPublish],
          .thrown (if env.apiErr.isStainless then env.apiErr
            else .stainless ("Failed to publish "
              ++ filesDesc (env.openApiFile.getD "") env.stainlessConfigFile
              ++ " to Stainless API") (some env.apiErr)))

end FileWatcher

theorem mem_executePostCloneCommand {cfg : LifecycleManager.LifecycleConfig}
    {n : Option String} {op : Op}
    (h : op ∈ RepoManager.executePostCloneCommand cfg n) :
    ∃ c, op = .hook .postClone c := by
  rcases n with _ | s
  · simp [RepoManager.executePostCloneCommand] at h
  · by_cases hs : s = ""
    · simp [RepoManager.executePostCloneCommand, hs] at h
    · simp only [RepoManager.executePostCloneCommand,
        LifecycleManager.executePostClone] at h
      rw [if_neg hs] at h
      rcases hm : ((cfg s).bind LifecycleManager.StageCmds.postClone) with _ | cmd <;>
        rw [hm] at h
      · simp at h
      · by_cases hc : cmd = ""
        · simp [hc] at h
        · simp [hc] at h
          exact ⟨cmd, h⟩

/-- C10. Lifecycle hooks require an sdkName: with `options.sdkName`
undefined, a fresh clone, a pull, and a publish each complete without
invoking any hook command — even when hook commands are configured for
those stages in the lifecycle configuration. -/
theorem lifecycle_hook_requires_sdkName :
    (∀ env : RepoManager.CloneRepoEnv, env.sdkName = none →
      (RepoManager.cloneFreshRepo env).filter isHookOp = []) ∧
    (∀ env : RepoManager.PullEnv, env.sdkName = none →
      (RepoManager.pullChanges env).1.filter isHookOp = []) ∧
    (∀ env : FileWatcher.PublishEnv, env.sdkName = none →
      (FileWatcher.publishFiles env).1.filter isHookOp = []) := by
  refine ⟨?_, ?_, ?_⟩
  · intro env h
    have hpc : RepoManager.executePostCloneCommand env.cfg env.sdkName = [] := by
      rw [h]; rfl
    rcases env with ⟨be, sn, cfg⟩
    simp only at hpc
    cases be <;> simp [RepoManager.cloneFreshRepo, hpc, isHookOp]
  · intro env h
    have hpu : RepoManager.executePostUpdateCommand env.cfg env.sdkName = [] := by
      rw [h]; rfl
    cases h0 : env.oldHashOk
    · rw [pullChanges_oldHash_fail env h0]
      rfl
    · cases h1 : env.clean
      · cases h2 : env.pullOk
        · cases h3 : env.hfpPopOk
          · rw [pullChanges_dirty_fail_noPop env h0 h1 h2 h3]
            rfl
          · rw [pullChanges_dirty_fail_pop env h0 h1 h2 h3]
            rfl
        · cases hN : env.newHashOk
          · rw [pullChanges_dirty_newHash_fail env h0 h1 h2 hN]
            rfl
          · cases h3 : env.popOk
            · cases hL : env.stashListOk
              · cases h5 : env.hfpPopOk
                · rw [pullChanges_dirty_ok_listFail_noPop env h0 h1 h2 hN h3 hL h5]
                  rfl
                · rw [pullChanges_dirty_ok_listFail_pop env h0 h1 h2 hN h3 hL h5]
                  rfl
              · rcases h4 : RepoManager.findStashRef env.stashListOut with _ | ref
                · rw [pullChanges_dirty_ok_noRef env h0 h1 h2 hN h3 hL h4]
                  rfl
                · cases h5 : env.applyOk
                  · rw [pullChanges_dirty_ok_noApply env ref h0 h1 h2 hN h3 hL h4 h5]
                    rfl
                  · rw [pullChanges_dirty_ok_apply env ref h0 h1 h2 hN h3 hL h4 h5]
                    rfl
            · rw [pullChanges_dirty_ok_pop env h0 h1 h2 hN h3]
              simp [hpu, isHookOp]
      · cases h2 : env.pullOk
        · rw [pullChanges_clean_fail env h0 h1 h2]
          rfl
        · cases hN : env.newHashOk
          · rw [pullChanges_clean_newHash_fail env h0 h1 h2 hN]
            rfl
          · rw [pullChanges_clean_ok env h0 h1 h2 hN]
            simp [hpu, isHookOp]
  · intro env h
    rcases env with ⟨oa, scf, hlm, sn, cfg, rs, rc, ap, ae⟩
    simp only at h
    subst h
    by_cases hoa : truthy oa = false
    · simp [FileWatcher.publishFiles, hoa]
    · rw [Bool.not_eq_false] at hoa
      have htn : truthy (none : Option String) = false := rfl
      cases hscf : truthy scf <;> cases rs <;> cases rc <;> cases ap <;>
        simp [FileWatcher.publishFiles, hoa, hscf, htn, isHookOp]

/-- Witness for C10: with `sdkName = none` and hook commands configured
for every stage, neither a fresh clone nor a publish invokes any hook
command. -/
theorem lifecycle_hook_requires_sdkName_witness :
    (RepoManager.cloneFreshRepo
        ⟨true, none, fun _ => some ⟨some "echo a", some "echo b", some "echo c"⟩⟩).filter
          isHookOp = [] ∧
    (FileWatcher.publishFiles
        ⟨some "openapi.yml", some "stainless.yml", true, none,
          fun _ => some ⟨some "echo a", some "echo b", some "echo c"⟩,
          true, true, true, .opErr .apiPublish⟩).1.filter isHookOp = [] :=
  ⟨lifecycle_hook_requires_sdkName.1 _ rfl,
   lifecycle_hook_requires_sdkName.2.2 _ rfl⟩
